import Mathlib

/-!
Verification of the cupertino-nvr stream processor core.

Shallow embedding of the Python sources:
- `cupertino_nvr/events/protocol.py`  (topic naming)
- `cupertino_nvr/events/schema.py`    (DetectionEvent wire schema)
- `cupertino_nvr/processor/mqtt_sink.py` (MQTTDetectionSink)
- `cupertino_nvr/processor/config.py` (StreamProcessorConfig)
- `cupertino_nvr/processor/control_plane.py` (MQTTControlPlane._on_message)
- `cupertino_nvr/processor/command_handlers.py` (rollback templates)
- `cupertino_nvr/processor/validators.py` (CommandValidators)

Machine integers are modelled as `Int`/`Nat` (Python ints are unbounded),
Python floats as `ℚ`, JSON payloads as association lists.
-/

namespace NVR

/- ------------------------------------------------------------------ -/
/- Decimal rendering of integers: the meaning of Python str()/f-string
   interpolation on an int, used to build MQTT topics.                 -/
/- ------------------------------------------------------------------ -/

def digitChar : Nat → Char
  | 0 => '0' | 1 => '1' | 2 => '2' | 3 => '3' | 4 => '4'
  | 5 => '5' | 6 => '6' | 7 => '7' | 8 => '8' | _ => '9'

def natDigits (n : Nat) : List Char :=
  if _h : n < 10 then [digitChar n]
  else natDigits (n / 10) ++ [digitChar (n % 10)]
termination_by n
decreasing_by exact Nat.div_lt_self (by omega) (by omega)

def natRepr (n : Nat) : String := ⟨natDigits n⟩

/-- Python str() on an int: optional minus sign followed by decimal digits. -/
def intRepr (z : Int) : String :=
  if z < 0 then "-" ++ natRepr (-z).toNat else natRepr z.toNat

/- ------------------------------------------------------------------ -/
/- JSON values (the wire form produced by pydantic model_dump_json).   -/
/- ------------------------------------------------------------------ -/

inductive Json where
  | null : Json
  | bool : Bool → Json
  | int : Int → Json
  | num : ℚ → Json
  | str : String → Json
  | arr : List Json → Json
  | obj : List (String × Json) → Json

/- ------------------------------------------------------------------ -/
/- events/schema.py                                                    -/
/- ------------------------------------------------------------------ -/

/-- schema.py BoundingBox: centre + size, floats. -/
structure BoundingBox where
  x : ℚ
  y : ℚ
  width : ℚ
  height : ℚ
  deriving DecidableEq

/-- schema.py Detection. -/
structure Detection where
  class_name : String
  confidence : ℚ
  bbox : BoundingBox
  tracker_id : Option Int
  deriving DecidableEq

/-- schema.py DetectionEvent: exactly the fields declared on the pydantic
model (source_id, frame_id, timestamp, model_id, inference_time_ms,
detections, fps, latency_ms).  The model declares NO instance_id field;
pydantic's default config ignores unknown constructor keywords, so an
`instance_id=...` argument passed by a caller is silently dropped. -/
structure DetectionEvent where
  source_id : Int
  frame_id : Int
  timestamp : String
  model_id : String
  inference_time_ms : ℚ
  detections : List Detection
  fps : Option ℚ
  latency_ms : Option ℚ
  deriving DecidableEq

def dumpOptNum : Option ℚ → Json
  | none => Json.null
  | some q => Json.num q

def dumpOptInt : Option Int → Json
  | none => Json.null
  | some n => Json.int n

def dumpBBox (b : BoundingBox) : Json :=
  Json.obj [("x", Json.num b.x), ("y", Json.num b.y),
            ("width", Json.num b.width), ("height", Json.num b.height)]

def dumpDetection (d : Detection) : Json :=
  Json.obj [("class_name", Json.str d.class_name),
            ("confidence", Json.num d.confidence),
            ("bbox", dumpBBox d.bbox),
            ("tracker_id", dumpOptInt d.tracker_id)]

/-- `DetectionEvent.model_dump_json()`: JSON object whose keys are exactly
the fields declared on the pydantic model, in declaration order. -/
def model_dump (e : DetectionEvent) : List (String × Json) :=
  [("source_id", Json.int e.source_id),
   ("frame_id", Json.int e.frame_id),
   ("timestamp", Json.str e.timestamp),
   ("model_id", Json.str e.model_id),
   ("inference_time_ms", Json.num e.inference_time_ms),
   ("detections", Json.arr (e.detections.map dumpDetection)),
   ("fps", dumpOptNum e.fps),
   ("latency_ms", dumpOptNum e.latency_ms)]

/- ------------------------------------------------------------------ -/
/- events/protocol.py                                                  -/
/- ------------------------------------------------------------------ -/

/-- protocol.py topic_for_source: f-string concatenation of the topic
root, a slash, and the decimal source id. -/
def topic_for_source (source_id : Int) (topicRoot : String) : String :=
  topicRoot ++ "/" ++ intRepr source_id

/-- The last path segment of an MQTT topic: the characters after the last
slash (the whole string when it has no slash). -/
def lastPathSegment (s : String) : String :=
  ⟨((s.data.reverse).takeWhile (fun c => c ≠ '/')).reverse⟩

/- ------------------------------------------------------------------ -/
/- processor/config.py                                                 -/
/- ------------------------------------------------------------------ -/

/-- Configuration dataclass of `StreamProcessorConfig` (config.py).
Field names follow the source; `mqttTopicRoot` stands for the source's
MQTT detection-topic namespace field and `controlStatusTopic` /
`controlCommandTopic` for the control-plane topic fields. -/
structure StreamProcessorConfig where
  stream_uris : List String
  model_id : String := "yolov8x-640"
  mqtt_host : String := "localhost"
  mqtt_port : Int := 1883
  mqttTopicRoot : String := "nvr/detections"
  mqtt_qos : Int := 0
  mqtt_username : Option String := none
  mqtt_password : Option String := none
  max_fps : Option ℚ := none
  confidence_threshold : ℚ := 1/2
  enable_watchdog : Bool := true
  source_id_mapping : Option (List Int) := none
  stream_server : String := "rtsp://localhost:8554"
  enable_control_plane : Bool := false
  controlCommandTopic : String := "nvr/control/commands"
  controlStatusTopic : String := "nvr/control/status"
  metrics_reporting_interval : Int := 10
  metrics_topic : String := "nvr/status/metrics"
  instance_id : String
  deriving DecidableEq

def isSchemeStart (c : Char) : Bool := c.isAlpha

def isSchemeChar (c : Char) : Bool := c.isAlphanum || c == '+' || c == '-' || c == '.'

/-- Scheme recognition of Python urllib.parse.urlsplit: the text before
the first colon is a scheme when it is non-empty, starts with an ASCII
letter and contains only letters, digits, plus, minus and dot.  Returns
the characters after the colon when a scheme is present. -/
def splitSchemeAux : List Char → List Char → Option (List Char)
  | [], _acc => none
  | c :: cs, acc =>
    if c == ':' then (if acc.isEmpty then none else some cs)
    else if (if acc.isEmpty then isSchemeStart c else isSchemeChar c) then
      splitSchemeAux cs (c :: acc)
    else none

/-- `StreamProcessorConfig._is_valid_uri` (config.py): urlparse the URI
and require a scheme together with a non-empty authority or path. -/
def is_valid_uri (uri : String) : Bool :=
  let noFrag := uri.data.takeWhile (fun c => c != '#')
  match splitSchemeAux noFrag [] with
  | none => false
  | some rest =>
    match rest with
    | '/' :: '/' :: r =>
      let netloc := r.takeWhile (fun c => c != '/' && c != '?')
      let path := (r.dropWhile (fun c => c != '/' && c != '?')).takeWhile (fun c => c != '?')
      !netloc.isEmpty || !path.isEmpty
    | r => !(r.takeWhile (fun c => c != '?')).isEmpty

/-- `StreamProcessorConfig._validate` (config.py): raises on the first
failing check; returns unit when all checks pass.  The checks are, in
order: non-empty stream list, URI well-formedness, MQTT port range,
max_fps positivity, metrics interval non-negativity, confidence
threshold range. -/
def validate (c : StreamProcessorConfig) : Except String Unit :=
  if c.stream_uris.isEmpty then Except.error "stream_uris cannot be empty"
  else match c.stream_uris.find? (fun u => !is_valid_uri u) with
  | some u => Except.error ("Invalid stream URI: " ++ u)
  | none =>
    if ¬(1 ≤ c.mqtt_port ∧ c.mqtt_port ≤ 65535) then
      Except.error "Invalid MQTT port"
    else if (match c.max_fps with | some f => decide (f ≤ 0) | none => false) then
      Except.error "max_fps must be positive"
    else if c.metrics_reporting_interval < 0 then
      Except.error "metrics_reporting_interval cannot be negative"
    else if ¬(0 ≤ c.confidence_threshold ∧ c.confidence_threshold ≤ 1) then
      Except.error "confidence_threshold must be between 0 and 1"
    else Except.ok ()

/-- `StreamProcessorConfig.build_stream_uri` (config.py). -/
def build_stream_uri (c : StreamProcessorConfig) (source_id : Int) : String :=
  c.stream_server ++ "/" ++ intRepr source_id

/-- `StreamProcessorConfig.add_stream` (config.py).  A `None` mapping is
first replaced by the empty list; a duplicate id raises; otherwise the
synthesised URI and the id are appended.  `_validate` is NOT re-run. -/
def add_stream (c : StreamProcessorConfig) (source_id : Int) :
    Except String StreamProcessorConfig :=
  let m := c.source_id_mapping.getD []
  if source_id ∈ m then
    Except.error ("Stream with source_id " ++ intRepr source_id ++ " already exists")
  else
    Except.ok { c with
      stream_uris := c.stream_uris ++ [build_stream_uri c source_id],
      source_id_mapping := some (m ++ [source_id]) }

/-- `StreamProcessorConfig.remove_stream` (config.py).  Raises when the
mapping is `None`, when the id is unknown, or when only one stream is
left; otherwise pops the entry at the id's index from both lists.  (When
the index found in the mapping is out of range for `stream_uris`, the
Python `list.pop` raises IndexError before either list is modified.)
`_validate` is NOT re-run. -/
def remove_stream (c : StreamProcessorConfig) (source_id : Int) :
    Except String StreamProcessorConfig :=
  match c.source_id_mapping with
  | none => Except.error "Cannot remove stream: source_id_mapping is None"
  | some m =>
    if source_id ∉ m then
      Except.error ("Stream with source_id " ++ intRepr source_id ++ " not found")
    else if c.stream_uris.length == 1 then
      Except.error "Cannot remove last stream (at least one stream required)"
    else
      let idx := m.indexOf source_id
      if idx < c.stream_uris.length then
        Except.ok { c with
          stream_uris := c.stream_uris.eraseIdx idx,
          source_id_mapping := some (m.eraseIdx idx) }
      else Except.error "IndexError: pop index out of range"

/- ------------------------------------------------------------------ -/
/- processor/mqtt_sink.py                                              -/
/- ------------------------------------------------------------------ -/

/-- A VideoFrame as consumed by the sink: internal source index (assigned
0-based by the inference pipeline), frame id and capture timestamp. -/
structure Frame where
  source_id : Nat
  frame_id : Int
  frame_timestamp : String
  deriving DecidableEq

/-- One entry of a Roboflow prediction dict's `predictions` list. -/
structure PredItem where
  cls : String
  confidence : ℚ
  x : ℚ
  y : ℚ
  width : ℚ
  height : ℚ
  tracker_id : Option Int
  deriving DecidableEq

/-- A Roboflow prediction dict: `predictions` list plus the optional
`time` entry (seconds), read with `prediction.get("time", 0)`. -/
structure Prediction where
  predictions : List PredItem
  time : Option ℚ
  deriving DecidableEq

/-- A call to `MessageBroker.publish`: topic, JSON payload (as key/value
pairs), QoS and retain flag. -/
structure PublishRecord where
  topic : String
  payload : List (String × Json)
  qos : Int
  retain : Bool

/-- The immutable part of an `MQTTDetectionSink`: the constructor stores
the topic namespace, the config reference, and
`source_id_mapping or []` (so a `None` or empty mapping becomes `[]`). -/
structure Sink where
  topicRoot : String
  config : StreamProcessorConfig
  source_id_mapping : List Int

/-- `MQTTDetectionSink.__init__` given the optional mapping argument. -/
def mkSink (topicRoot : String) (config : StreamProcessorConfig)
    (mapping : Option (List Int)) : Sink :=
  { topicRoot := topicRoot, config := config,
    source_id_mapping :=
      match mapping with
      | some m => if m.isEmpty then [] else m
      | none => [] }

/-- `MQTTDetectionSink._get_actual_source_id`: when the mapping is
non-empty and the internal id is in range, look it up; otherwise fall
back to the internal id itself. -/
def get_actual_source_id (mapping : List Int) (internal : Nat) : Int :=
  if h : ¬mapping.isEmpty ∧ internal < mapping.length then
    mapping.get ⟨internal, h.2⟩
  else
    (internal : Int)

/-- `MQTTDetectionSink._create_event`: builds the pydantic
`DetectionEvent`.  The Python call also passes
`instance_id=self.config.instance_id`, but the pydantic model declares
no such field, so the keyword is ignored and the constructed event has
exactly the eight declared fields. -/
def create_event (config : StreamProcessorConfig) (p : Prediction) (f : Frame)
    (actual_source_id : Int) : DetectionEvent :=
  { source_id := actual_source_id,
    frame_id := f.frame_id,
    timestamp := f.frame_timestamp,
    model_id := config.model_id,
    inference_time_ms := (p.time.getD 0) * 1000,
    detections := p.predictions.map (fun q =>
      { class_name := q.cls, confidence := q.confidence,
        bbox := { x := q.x, y := q.y, width := q.width, height := q.height },
        tracker_id := q.tracker_id }),
    fps := none,
    latency_ms := none }

/-- Body of the per-pair loop of `MQTTDetectionSink.__call__` for one
(prediction, frame) pair: `None` entries are skipped, otherwise one
publish is issued with the literal `qos=0` from the source and the
publish default `retain=False`. -/
def processPair (s : Sink) : Option Prediction × Option Frame → List PublishRecord
  | (some p, some f) =>
    let actual := get_actual_source_id s.source_id_mapping f.source_id
    [{ topic := topic_for_source actual s.topicRoot,
       payload := model_dump (create_event s.config p f actual),
       qos := 0,
       retain := false }]
  | _ => []

/-- `MQTTDetectionSink._wrap_in_list`: a bare item becomes a singleton. -/
inductive PyArg (α : Type) where
  | single : α → PyArg α
  | list : List α → PyArg α
  deriving DecidableEq

def wrap_in_list {α : Type} : PyArg α → List α
  | PyArg.single a => [a]
  | PyArg.list l => l

/-- The publishes performed by one invocation of
`MQTTDetectionSink.__call__` when the running gate is set: wrap both
arguments, zip them (Python zip truncates to the shorter list) and
process each pair. -/
def callPublishes (s : Sink) (preds : PyArg (Option Prediction))
    (frames : PyArg (Option Frame)) : List PublishRecord :=
  ((wrap_in_list preds).zip (wrap_in_list frames)).flatMap (processPair s)

/-- Operations on the sink observable from outside: an invocation with a
batch of predictions/frames, `pause()`, or `resume()`. -/
inductive SinkOp where
  | call : PyArg (Option Prediction) → PyArg (Option Frame) → SinkOp
  | pauseOp : SinkOp
  | resumeOp : SinkOp
  deriving DecidableEq

/-- Mutable sink state: the `_running` threading.Event plus the log of
publishes issued so far. -/
structure SinkState where
  running : Bool
  published : List PublishRecord

/-- One step of the sink: `__call__` returns immediately when the gate
is cleared, `pause()` clears the gate, `resume()` sets it. -/
def sinkStep (s : Sink) (st : SinkState) : SinkOp → SinkState
  | SinkOp.call ps fs =>
    if st.running then
      { st with published := st.published ++ callPublishes s ps fs }
    else st
  | SinkOp.pauseOp => { st with running := false }
  | SinkOp.resumeOp => { st with running := true }

/-- Run a sequence of sink operations. -/
def sinkRun (s : Sink) (st : SinkState) (ops : List SinkOp) : SinkState :=
  ops.foldl (sinkStep s) st

/- ------------------------------------------------------------------ -/
/- processor/control_plane.py                                          -/
/- ------------------------------------------------------------------ -/

/-- `MQTTControlPlane._should_process_command`: broadcast when the
target list is empty or exactly the singleton star, otherwise process
only when this instance id is listed. -/
def should_process_command (instance_id : String) (targets : List String) : Bool :=
  if targets.isEmpty || targets == ["*"] then true
  else instance_id ∈ targets

/-- Outcome of `CommandRegistry.execute` as observed by `_on_message`:
normal return, `CommandNotAvailableError`, a `ValueError` (which
includes the validator and config-validation errors, both subclasses),
or any other exception. -/
inductive ExecOutcome where
  | success : ExecOutcome
  | notAvailable : String → ExecOutcome
  | valueError : String → ExecOutcome
  | otherError : ExecOutcome
  deriving DecidableEq

/-- One acknowledgement published by `MQTTControlPlane._publish_ack`:
topic, ack status, optional message, and the fixed QoS 1 / retain
False of the source. -/
structure Ack where
  topic : String
  ack_status : String
  message : String
  deriving DecidableEq

def publish_ack (statusTopicRoot instance_id : String)
    (ack_status message : String) : Ack :=
  -- the payload also carries the command name, the instance id and a
  -- timestamp; no claim needs them, so the record keeps topic, status
  -- and message only
  { topic := statusTopicRoot ++ "/" ++ instance_id ++ "/ack",
    ack_status := ack_status,
    message := message }

/-- The acknowledgements published by `MQTTControlPlane._on_message` for
one successfully JSON-decoded command message, as a function of the
targeting filter and of the registry execution outcome.  The source
acks `received` after the filter, then `completed` on normal return and
`error` on `CommandNotAvailableError` or `ValueError`; any other
exception escapes to the outer catch-all handler, which only logs. -/
def onMessageAcks (statusTopicRoot instance_id : String)
    (targets : List String) (outcome : ExecOutcome) : List Ack :=
  if ¬should_process_command instance_id targets then []
  else
    publish_ack statusTopicRoot instance_id "received" "" ::
      (match outcome with
       | ExecOutcome.success =>
         [publish_ack statusTopicRoot instance_id "completed" ""]
       | ExecOutcome.notAvailable m =>
         [publish_ack statusTopicRoot instance_id "error" m]
       | ExecOutcome.valueError m =>
         [publish_ack statusTopicRoot instance_id "error" m]
       | ExecOutcome.otherError => [])

/-- An ack is terminal when its status is `completed` or `error`. -/
def isTerminalAck (a : Ack) : Bool :=
  a.ack_status == "completed" || a.ack_status == "error"

/- ------------------------------------------------------------------ -/
/- processor/validators.py                                             -/
/- ------------------------------------------------------------------ -/

/-- A Python value arriving as a decoded-JSON command parameter:
an int, a float (modelled as an exact rational), a string, or None. -/
inductive PyValue where
  | int : Int → PyValue
  | float : ℚ → PyValue
  | str : String → PyValue
  | none : PyValue
  deriving DecidableEq

/-- Truncation toward zero: the value of Python `int(x)` on a float. -/
def ratTrunc (q : ℚ) : Int := q.num.tdiv q.den

/-- Parse a string as Python `int(s)` does for plain decimal literals:
an optional sign followed by one or more digits.  (The builtin also
strips whitespace and allows underscores; those inputs are outside this
model.) -/
def parsePyIntDigits : List Char → Option Nat
  | [] => Option.none
  | cs =>
    if cs.all (fun c => c.isDigit) then
      Option.some (cs.foldl (fun acc c => acc * 10 + (c.toNat - 48)) 0)
    else Option.none

def parsePyInt (s : String) : Option Int :=
  match s.data with
  | '-' :: rest => (parsePyIntDigits rest).map (fun n => -(n : Int))
  | '+' :: rest => (parsePyIntDigits rest).map (fun n => (n : Int))
  | cs => (parsePyIntDigits cs).map (fun n => (n : Int))

/-- The Python builtin `int(x)` on the modelled values: identity on
ints, truncation on floats, decimal parse on strings (`None` when the
parse raises), and a TypeError (`None`) on None. -/
def pyInt : PyValue → Option Int
  | PyValue.int n => Option.some n
  | PyValue.float q => Option.some (ratTrunc q)
  | PyValue.str s => parsePyInt s
  | PyValue.none => Option.none

/-- `CommandValidators.validate_source_id` (validators.py): convert with
`int(...)`, raising `CommandValidationError` when the conversion raises;
then reject negative results. -/
def validate_source_id (v : PyValue) : Except String Int :=
  match pyInt v with
  | Option.none => Except.error "Invalid source_id: must be numeric"
  | Option.some n =>
    if n < 0 then Except.error "Invalid source_id: cannot be negative"
    else Except.ok n

/- ------------------------------------------------------------------ -/
/- processor/command_handlers.py                                       -/
/- ------------------------------------------------------------------ -/

/-- Whether `PipelineController.restart_with_coordination` raises, an
input of the rollback templates. -/
inductive RestartOutcome where
  | ok : RestartOutcome
  | fail : RestartOutcome
  deriving DecidableEq

/-- The reconfiguration commands covered by the rollback templates, each
carrying its raw command parameter. -/
inductive ReconfigCommand where
  | changeModel : PyValue → ReconfigCommand
  | setFps : PyValue → ReconfigCommand
  | addStream : PyValue → ReconfigCommand
  | removeStream : PyValue → ReconfigCommand
  deriving DecidableEq

/-- `CommandValidators.validate_model_id` (validators.py). -/
def validate_model_id (v : PyValue) : Except String String :=
  match v with
  | PyValue.str s =>
    let t := s.trim
    if t.isEmpty then Except.error "Invalid model_id: must be non-empty string"
    else Except.ok t
  | _ => Except.error "Invalid model_id: must be string"

/-- `CommandValidators.validate_fps` (validators.py): convert with
`float(...)` (ints, floats and numeric strings succeed), then require a
strictly positive value. -/
def validate_fps (v : PyValue) : Except String ℚ :=
  let asFloat : Option ℚ :=
    match v with
    | PyValue.int n => Option.some (n : ℚ)
    | PyValue.float q => Option.some q
    | PyValue.str s => (parsePyInt s).map (fun n => (n : ℚ))
    | PyValue.none => Option.none
  match asFloat with
  | Option.none => Except.error "Invalid max_fps: must be numeric"
  | Option.some q =>
    if q ≤ 0 then Except.error "Invalid max_fps: must be > 0"
    else Except.ok q

/-- `CommandHandlers._execute_config_change` for CHANGE_MODEL: validate
(before any mutation), back up the old attribute, set the new value,
restart; on restart failure restore the attribute and re-raise.
Returns the error (if any) together with the config after the handler
returns or re-raises. -/
def execute_change_model (c : StreamProcessorConfig) (v : PyValue)
    (restart : RestartOutcome) : Option String × StreamProcessorConfig :=
  match v with
  | PyValue.none => (Option.some "Missing required parameter: model_id", c)
  | _ =>
    match validate_model_id v with
    | Except.error e => (Option.some e, c)
    | Except.ok newModel =>
      let mutated := { c with model_id := newModel }
      match restart with
      | RestartOutcome.ok => (Option.none, mutated)
      | RestartOutcome.fail =>
        (Option.some "restart failed", { mutated with model_id := c.model_id })

/-- `CommandHandlers._execute_config_change` for SET_FPS. -/
def execute_set_fps (c : StreamProcessorConfig) (v : PyValue)
    (restart : RestartOutcome) : Option String × StreamProcessorConfig :=
  match v with
  | PyValue.none => (Option.some "Missing required parameter: max_fps", c)
  | _ =>
    match validate_fps v with
    | Except.error e => (Option.some e, c)
    | Except.ok newFps =>
      let mutated := { c with max_fps := Option.some newFps }
      match restart with
      | RestartOutcome.ok => (Option.none, mutated)
      | RestartOutcome.fail =>
        (Option.some "restart failed", { mutated with max_fps := c.max_fps })

/-- `CommandHandlers._execute_stream_change`: back up
`list(stream_uris)` and `list(source_id_mapping) if source_id_mapping
else []` (so a `None` or empty mapping is backed up as `[]`), run the
`Config` mutation, restart; on any failure assign both backups onto the
config and re-raise. -/
def execute_stream_change (c : StreamProcessorConfig)
    (op : StreamProcessorConfig → Int → Except String StreamProcessorConfig)
    (source_id : Int) (restart : RestartOutcome) :
    Option String × StreamProcessorConfig :=
  let oldUris := c.stream_uris
  let oldMapping := c.source_id_mapping.getD []
  match op c source_id with
  | Except.error e =>
    (Option.some e,
     { c with stream_uris := oldUris, source_id_mapping := Option.some oldMapping })
  | Except.ok mutated =>
    match restart with
    | RestartOutcome.ok => (Option.none, mutated)
    | RestartOutcome.fail =>
      (Option.some "restart failed",
       { mutated with stream_uris := oldUris,
                      source_id_mapping := Option.some oldMapping })

/-- `CommandHandlers.handle_add_stream` / `handle_remove_stream`: check
parameter presence, run `validate_source_id`, then the stream-change
template; both checks happen before any mutation. -/
def handle_stream_command (c : StreamProcessorConfig)
    (op : StreamProcessorConfig → Int → Except String StreamProcessorConfig)
    (v : PyValue) (restart : RestartOutcome) :
    Option String × StreamProcessorConfig :=
  match v with
  | PyValue.none => (Option.some "Missing required parameter: source_id", c)
  | _ =>
    match validate_source_id v with
    | Except.error e => (Option.some e, c)
    | Except.ok n => execute_stream_change c op n restart

/-- The four reconfiguration handlers dispatched by command. -/
def executeReconfig (c : StreamProcessorConfig) (cmd : ReconfigCommand)
    (restart : RestartOutcome) : Option String × StreamProcessorConfig :=
  match cmd with
  | ReconfigCommand.changeModel v => execute_change_model c v restart
  | ReconfigCommand.setFps v => execute_set_fps c v restart
  | ReconfigCommand.addStream v => handle_stream_command c add_stream v restart
  | ReconfigCommand.removeStream v => handle_stream_command c remove_stream v restart

deriving instance DecidableEq for Except

/-- Whether an Except value is a normal return (Python: no exception). -/
def exceptIsOk {ε α : Type} : Except ε α → Bool
  | Except.ok _ => true
  | Except.error _ => false

/- ------------------------------------------------------------------ -/
/- Concrete instances used by witnesses and counterexamples            -/
/- ------------------------------------------------------------------ -/

/-- The prediction of the repository's own sink test: one person
detection with confidence 0.92 and inference time 0.045 s. -/
def predEx : Prediction :=
  { predictions := [{ cls := "person", confidence := mkRat 92 100, x := 100, y := 150,
                      width := 80, height := 200, tracker_id := Option.none }],
    time := Option.some (mkRat 45 1000) }

def frameEx : Frame :=
  { source_id := 0, frame_id := 7, frame_timestamp := "2025-10-25T10:30:00Z" }

/-- Config with a non-default QoS (mqtt_qos = 1). -/
def cfgQ : StreamProcessorConfig :=
  { stream_uris := ["rtsp://localhost:8554/0"], mqtt_qos := 1,
    instance_id := "test-processor" }

def sinkQ : Sink := mkSink "nvr/detections" cfgQ cfgQ.source_id_mapping

/-- Config with the remap [8, 6] of spec scenario S2. -/
def cfgRemap : StreamProcessorConfig :=
  { stream_uris := ["rtsp://localhost:8554/8", "rtsp://localhost:8554/6"],
    source_id_mapping := Option.some [8, 6], instance_id := "P" }

def stEx : SinkState := { running := true, published := [] }

def opsEx : List SinkOp :=
  [SinkOp.call (PyArg.single (Option.some predEx)) (PyArg.single (Option.some frameEx)),
   SinkOp.pauseOp]

/-- Two-stream config whose source_id_mapping is None (the dataclass
default), as produced by a construction that never set it. -/
def cfgNoneMap : StreamProcessorConfig :=
  { stream_uris := ["rtsp://a/0", "rtsp://a/1"],
    confidence_threshold := mkRat 1 2, instance_id := "P" }

/-- Two-stream config with an aligned mapping [0, 1]. -/
def cfgAligned : StreamProcessorConfig :=
  { stream_uris := ["rtsp://a/0", "rtsp://a/1"],
    source_id_mapping := Option.some [0, 1],
    confidence_threshold := mkRat 1 2, instance_id := "P" }

/-- One-stream config (remove_stream must refuse to empty it). -/
def cfgSingle : StreamProcessorConfig :=
  { stream_uris := ["rtsp://a/0"], source_id_mapping := Option.some [0],
    confidence_threshold := mkRat 1 2, instance_id := "P" }

/-- Config whose mapping has a different length than stream_uris (and a
duplicate id): `_validate` accepts it, showing those invariants are not
checked. -/
def cfgMismatched : StreamProcessorConfig :=
  { stream_uris := ["rtsp://h/0"], source_id_mapping := Option.some [1, 1],
    confidence_threshold := mkRat 1 2, instance_id := "P" }

/- ------------------------------------------------------------------ -/
/- Supporting lemmas                                                   -/
/- ------------------------------------------------------------------ -/

theorem digitChar_ne_slash (d : Nat) : digitChar d ≠ '/' := by
  unfold digitChar
  split <;> decide

theorem natDigits_ne_slash (n : Nat) : ∀ c ∈ natDigits n, c ≠ '/' := by
  induction n using Nat.strong_induction_on with
  | _ n ih =>
    rw [natDigits]
    split
    · intro c hc
      rw [List.mem_singleton] at hc
      subst hc
      exact digitChar_ne_slash _
    · intro c hc
      rcases List.mem_append.1 hc with h | h
      · exact ih (n / 10) (Nat.div_lt_self (by omega) (by omega)) c h
      · rw [List.mem_singleton] at h
        subst h
        exact digitChar_ne_slash _

theorem intRepr_no_slash (z : Int) : '/' ∉ (intRepr z).data := by
  unfold intRepr natRepr
  split
  · intro hmem
    rw [String.data_append] at hmem
    rcases List.mem_append.1 hmem with h | h
    · simp at h
    · exact natDigits_ne_slash _ _ h rfl
  · intro hmem
    exact natDigits_ne_slash _ _ hmem rfl

theorem lastPathSegment_concat (p t : String) (h : '/' ∉ t.data) :
    lastPathSegment (p ++ "/" ++ t) = t := by
  unfold lastPathSegment
  have hd : (p ++ "/" ++ t).data = p.data ++ '/' :: t.data := by
    rw [String.data_append, String.data_append]
    simp
  rw [hd, List.reverse_append, List.reverse_cons, List.append_assoc]
  rw [List.takeWhile_append_of_pos]
  · rw [List.singleton_append, List.takeWhile_cons_of_neg (by simp)]
    simp
  · intro a ha
    rw [List.mem_reverse] at ha
    simp only [decide_eq_true_eq]
    intro hEq
    subst hEq
    exact h ha

theorem get_actual_source_id_of_lt (m : List Int) (i : Nat) (h : i < m.length) :
    get_actual_source_id m i = m.get ⟨i, h⟩ := by
  have hne : ¬m.isEmpty := by
    cases m
    · simp at h
    · simp
  unfold get_actual_source_id
  rw [dif_pos ⟨hne, h⟩]

theorem get_actual_source_id_fallback (m : List Int) (i : Nat)
    (h : m = [] ∨ m.length ≤ i) : get_actual_source_id m i = (i : Int) := by
  unfold get_actual_source_id
  rw [dif_neg]
  rintro ⟨h1, h2⟩
  rcases h with h | h
  · exact h1 (by simp [h])
  · omega

theorem sinkRun_frozen (s : Sink) (st : SinkState) (ops : List SinkOp)
    (hrun : st.running = false) (h : SinkOp.resumeOp ∉ ops) :
    sinkRun s st ops = st := by
  induction ops generalizing st with
  | nil => rfl
  | cons op rest ih =>
    have hop : op ≠ SinkOp.resumeOp := fun he => h (he ▸ List.mem_cons_self _ _)
    have hrest : SinkOp.resumeOp ∉ rest := fun hm => h (List.mem_cons_of_mem _ hm)
    have hstep : sinkStep s st op = st := by
      cases op with
      | call ps fs => simp [sinkStep, hrun]
      | pauseOp =>
        cases st with
        | mk r pub =>
          simp only at hrun
          subst hrun
          rfl
      | resumeOp => exact absurd rfl hop
    show sinkRun s (sinkStep s st op) rest = st
    rw [hstep]
    exact ih st hrun hrest

/- ------------------------------------------------------------------ -/
/- Claim theorems                                                      -/
/- ------------------------------------------------------------------ -/

/-- C1: the JSON detection payload published by the sink does NOT
contain an "instance_id" field.  The pydantic `DetectionEvent` model of
schema.py declares only the eight fields below; the `instance_id`
keyword passed by `_create_event` is silently ignored, so the payload
keys of every published event are exactly these eight and never include
"instance_id" — the claim (and the repository's own test
test_mqtt_sink_with_fakes.py, which asserts
`event_data["instance_id"] == "test-processor"`) is contradicted by the
schema. -/
theorem detection_payload_has_no_instance_id
    (cfg : StreamProcessorConfig) (p : Prediction) (f : Frame) (a : Int) :
    ((model_dump (create_event cfg p f a)).map Prod.fst) =
      ["source_id", "frame_id", "timestamp", "model_id", "inference_time_ms",
       "detections", "fps", "latency_ms"] ∧
    "instance_id" ∉ (model_dump (create_event cfg p f a)).map Prod.fst := by
  refine ⟨rfl, ?_⟩
  show "instance_id" ∉
    ["source_id", "frame_id", "timestamp", "model_id", "inference_time_ms",
     "detections", "fps", "latency_ms"]
  decide

/-- C2: when the frame's internal source id is a valid index into the
sink's source-id mapping (taken from the config at construction), the
sink publishes exactly one record whose topic is
`topicRoot/{mapping[frame.source_id]}`; the topic's last path segment
and the payload's `source_id` both equal `mapping[frame.source_id]`. -/
theorem detection_topic_matches_payload_source_id
    (root : String) (cfg : StreamProcessorConfig) (p : Prediction) (f : Frame)
    (m : List Int) (hm : cfg.source_id_mapping = Option.some m)
    (h : f.source_id < m.length) :
    processPair (mkSink root cfg cfg.source_id_mapping)
        (Option.some p, Option.some f) =
      [{ topic := topic_for_source (m.get ⟨f.source_id, h⟩) root,
         payload := model_dump (create_event cfg p f (m.get ⟨f.source_id, h⟩)),
         qos := 0, retain := false }] ∧
    lastPathSegment (topic_for_source (m.get ⟨f.source_id, h⟩) root) =
      intRepr (m.get ⟨f.source_id, h⟩) ∧
    (model_dump (create_event cfg p f (m.get ⟨f.source_id, h⟩))).lookup "source_id" =
      Option.some (Json.int (m.get ⟨f.source_id, h⟩)) := by
  have hne : ¬m.isEmpty := by
    cases m
    · simp at h
    · simp
  have hs : (mkSink root cfg cfg.source_id_mapping).source_id_mapping = m := by
    rw [hm]
    show (if m.isEmpty then [] else m) = m
    rw [if_neg hne]
  have hact : get_actual_source_id
      (mkSink root cfg cfg.source_id_mapping).source_id_mapping f.source_id
      = m.get ⟨f.source_id, h⟩ := by
    rw [hs]
    exact get_actual_source_id_of_lt m _ h
  refine ⟨?_, ?_, ?_⟩
  · simp only [processPair]
    rw [hact]
    rfl
  · exact lastPathSegment_concat root _ (fun hc => intRepr_no_slash _ hc)
  · rfl

/-- C10: when the sink's mapping is empty (also the case when the
constructor received `None`) or the frame's internal id is out of its
range, the sink does not raise or drop the frame: it publishes exactly
one record using the internal id itself, both in the topic's last path
segment and in the payload's `source_id`. -/
theorem sink_identity_fallback
    (s : Sink) (p : Prediction) (f : Frame)
    (h : s.source_id_mapping = [] ∨ s.source_id_mapping.length ≤ f.source_id) :
    processPair s (Option.some p, Option.some f) =
      [{ topic := topic_for_source (f.source_id : Int) s.topicRoot,
         payload := model_dump (create_event s.config p f (f.source_id : Int)),
         qos := 0, retain := false }] ∧
    lastPathSegment (topic_for_source (f.source_id : Int) s.topicRoot) =
      intRepr (f.source_id : Int) ∧
    (model_dump (create_event s.config p f (f.source_id : Int))).lookup "source_id" =
      Option.some (Json.int (f.source_id : Int)) ∧
    (mkSink s.topicRoot s.config Option.none).source_id_mapping = [] := by
  refine ⟨?_, ?_, rfl, rfl⟩
  · simp only [processPair]
    rw [get_actual_source_id_fallback _ _ h]
  · exact lastPathSegment_concat s.topicRoot _ (fun hc => intRepr_no_slash _ hc)

/-- Witness for C2 at the remap config [8, 6] of spec scenario S2, with
a frame carrying internal source id 0: the single publish goes to
topic `nvr/detections/8` with payload source_id 8. -/
theorem detection_topic_matches_payload_source_id_witness :
    processPair (mkSink "nvr/detections" cfgRemap cfgRemap.source_id_mapping)
        (Option.some predEx, Option.some frameEx) =
      [{ topic := topic_for_source 8 "nvr/detections",
         payload := model_dump (create_event cfgRemap predEx frameEx 8),
         qos := 0, retain := false }] ∧
    lastPathSegment (topic_for_source 8 "nvr/detections") = intRepr 8 ∧
    (model_dump (create_event cfgRemap predEx frameEx 8)).lookup "source_id" =
      Option.some (Json.int 8) :=
  detection_topic_matches_payload_source_id "nvr/detections" cfgRemap predEx frameEx
    [8, 6] rfl (by decide)

/-- Witness for C10: `cfgQ` has no mapping, so the sink built from it
carries the empty mapping and the internal id 0 passes through. -/
theorem sink_identity_fallback_witness :
    processPair sinkQ (Option.some predEx, Option.some frameEx) =
      [{ topic := topic_for_source 0 "nvr/detections",
         payload := model_dump (create_event cfgQ predEx frameEx 0),
         qos := 0, retain := false }] ∧
    lastPathSegment (topic_for_source 0 "nvr/detections") = intRepr 0 ∧
    (model_dump (create_event cfgQ predEx frameEx 0)).lookup "source_id" =
      Option.some (Json.int 0) ∧
    (mkSink "nvr/detections" cfgQ Option.none).source_id_mapping = [] :=
  sink_identity_fallback sinkQ predEx frameEx (Or.inl rfl)

/-- C8 counterexample: with `mqtt_qos = 1` in the config, the sink still
publishes with QoS 0 — the source passes the literal `qos=0`, so the
published QoS is not the configured one. -/
theorem qos_ignores_config :
    (processPair sinkQ (Option.some predEx, Option.some frameEx)).map
        (fun r => r.qos) = [0] ∧
    sinkQ.config.mqtt_qos = 1 :=
  ⟨rfl, rfl⟩

/-- C8 amended: every record the sink publishes carries QoS 0 (the
hard-coded literal of mqtt_sink.py, regardless of `config.mqtt_qos`)
and retain=false (the publish default). -/
theorem publishes_qos0_no_retain (s : Sink) (preds : PyArg (Option Prediction))
    (frames : PyArg (Option Frame)) :
    ((callPublishes s preds frames).all
      (fun r => r.qos == 0 && r.retain == false)) = true := by
  rw [List.all_eq_true]
  intro r hr
  rw [callPublishes, List.mem_flatMap] at hr
  obtain ⟨⟨op, of⟩, _hmem, hpr⟩ := hr
  cases op with
  | none => exact absurd hpr (List.not_mem_nil r)
  | some p =>
    cases of with
    | none => exact absurd hpr (List.not_mem_nil r)
    | some f => exact List.eq_of_mem_singleton hpr ▸ rfl

/-- C3: after `pause()` returns, any sequence of sink operations that
contains no `resume()` publishes nothing: the publish log stays exactly
what it was when `pause()` returned, and the gate stays cleared. -/
theorem pause_blocks_all_publishes (s : Sink) (st : SinkState) (ops : List SinkOp)
    (h : SinkOp.resumeOp ∉ ops) :
    (sinkRun s (sinkStep s st SinkOp.pauseOp) ops).published = st.published ∧
    (sinkRun s (sinkStep s st SinkOp.pauseOp) ops).running = false := by
  have hfr := sinkRun_frozen s { st with running := false } ops rfl h
  constructor
  · show (sinkRun s { st with running := false } ops).published = st.published
    rw [hfr]
  · show (sinkRun s { st with running := false } ops).running = false
    rw [hfr]

/-- Witness for C3: pausing and then invoking the sink on a non-empty
batch produces no publish. -/
theorem pause_blocks_all_publishes_witness :
    (sinkRun sinkQ (sinkStep sinkQ stEx SinkOp.pauseOp) opsEx).published = [] ∧
    (sinkRun sinkQ (sinkStep sinkQ stEx SinkOp.pauseOp) opsEx).running = false :=
  pause_blocks_all_publishes sinkQ stEx opsEx (by decide)

/-- C4: the ack lifecycle of `_on_message` by registry outcome.  For a
matched, JSON-decoded command the control plane acks `received` and
then `completed` on success and `error` on `CommandNotAvailableError`
or `ValueError` — but when the handler raises any other exception, the
exception escapes to the outer catch-all, which logs without acking:
only `received` is published and no terminal ack ever follows,
contradicting the claim (and the IoT-pattern docstring of
`handle_restart` in command_handlers.py, which promises an automatic
`completed`-or-`error` ack). -/
theorem ack_lifecycle_by_outcome :
    (onMessageAcks "nvr/control/status" "proc-1" ["*"] ExecOutcome.success).map
        (fun a => a.ack_status) = ["received", "completed"] ∧
    (onMessageAcks "nvr/control/status" "proc-1" ["*"]
        (ExecOutcome.notAvailable "unknown command")).map
        (fun a => a.ack_status) = ["received", "error"] ∧
    (onMessageAcks "nvr/control/status" "proc-1" ["*"]
        (ExecOutcome.valueError "bad parameter")).map
        (fun a => a.ack_status) = ["received", "error"] ∧
    (onMessageAcks "nvr/control/status" "proc-1" ["*"] ExecOutcome.success).map
        (fun a => a.topic) =
      ["nvr/control/status/proc-1/ack", "nvr/control/status/proc-1/ack"] ∧
    (onMessageAcks "nvr/control/status" "proc-1" ["*"] ExecOutcome.otherError).map
        (fun a => a.ack_status) = ["received"] ∧
    (onMessageAcks "nvr/control/status" "proc-1" ["*"]
        ExecOutcome.otherError).filter isTerminalAck = [] := by
  refine ⟨rfl, rfl, rfl, rfl, rfl, rfl⟩

/-- C9 counterexample: the float 3.14 (an exact 157/50 in the model) is
not an integer, yet `validate_source_id` truncates and accepts it,
returning 3 — behaviour the validator's own docstring documents; the
non-integer string "10" is likewise accepted as 10.  This refutes the
claim that every non-integer input raises a validation error. -/
theorem validate_source_id_accepts_non_integer :
    validate_source_id (PyValue.float (mkRat 157 50)) = Except.ok 3 ∧
    validate_source_id (PyValue.str "10") = Except.ok 10 := by
  exact ⟨rfl, rfl⟩

/-- C9 amended: `validate_source_id` accepts exactly the inputs whose
Python `int()` conversion succeeds with a non-negative result — the
non-negative integers, but also floats (truncated toward zero) and
decimal strings — returning the converted value; it raises exactly
when the conversion fails (non-numeric input) or the converted value is
negative. -/
theorem validate_source_id_spec (v : PyValue) (n : Int) :
    (validate_source_id v = Except.ok n ↔ (pyInt v = Option.some n ∧ 0 ≤ n)) ∧
    (exceptIsOk (validate_source_id v) = false ↔
      (pyInt v = Option.none ∨ ∃ k, pyInt v = Option.some k ∧ k < 0)) := by
  cases hp : pyInt v with
  | none =>
    have hval : validate_source_id v = Except.error "Invalid source_id: must be numeric" := by
      unfold validate_source_id
      rw [hp]
    rw [hval]
    simp [exceptIsOk]
  | some k =>
    by_cases hk : k < 0
    · have hval : validate_source_id v =
          Except.error "Invalid source_id: cannot be negative" := by
        unfold validate_source_id
        rw [hp]
        show (if k < 0 then Except.error "Invalid source_id: cannot be negative"
              else Except.ok k) = _
        rw [if_pos hk]
      rw [hval]
      constructor
      · constructor
        · intro h
          exact Except.noConfusion h
        · rintro ⟨h1, _h2⟩
          injection h1 with h1
          omega
      · constructor
        · intro _h
          exact Or.inr ⟨k, rfl, hk⟩
        · intro _h
          rfl
    · have hval : validate_source_id v = Except.ok k := by
        unfold validate_source_id
        rw [hp]
        show (if k < 0 then Except.error "Invalid source_id: cannot be negative"
              else Except.ok k) = _
        rw [if_neg hk]
      rw [hval]
      constructor
      · constructor
        · intro h
          injection h with h
          exact ⟨by rw [h], by omega⟩
        · rintro ⟨h1, _h2⟩
          injection h1 with h1
          rw [h1]
      · constructor
        · intro h
          exact absurd h (by simp [exceptIsOk])
        · rintro (h | ⟨k', hk', hlt⟩)
          · exact Option.noConfusion h
          · injection hk' with hk'
            omega

/-- Witness for C9 at the concrete input "7": the validator accepts the
decimal string and returns 7. -/
theorem validate_source_id_spec_witness :
    validate_source_id (PyValue.str "7") = Except.ok 7 :=
  (validate_source_id_spec (PyValue.str "7") 7).1.mpr ⟨by decide, by decide⟩

theorem execute_change_model_rollback (c : StreamProcessorConfig) (v : PyValue)
    (restart : RestartOutcome)
    (h : (execute_change_model c v restart).1.isSome = true) :
    (execute_change_model c v restart).2 = c := by
  cases v with
  | none => rfl
  | int i => rfl
  | float q => rfl
  | str s =>
    cases hv : validate_model_id (PyValue.str s) with
    | error e => simp [execute_change_model, hv]
    | ok t =>
      cases restart with
      | ok => exact absurd h (by simp [execute_change_model, hv])
      | fail => simp [execute_change_model, hv]

theorem execute_set_fps_rollback (c : StreamProcessorConfig) (v : PyValue)
    (restart : RestartOutcome)
    (h : (execute_set_fps c v restart).1.isSome = true) :
    (execute_set_fps c v restart).2 = c := by
  cases v with
  | none => rfl
  | int i =>
    cases hv : validate_fps (PyValue.int i) with
    | error e => simp [execute_set_fps, hv]
    | ok q =>
      cases restart with
      | ok => exact absurd h (by simp [execute_set_fps, hv])
      | fail => simp [execute_set_fps, hv]
  | float q0 =>
    cases hv : validate_fps (PyValue.float q0) with
    | error e => simp [execute_set_fps, hv]
    | ok q =>
      cases restart with
      | ok => exact absurd h (by simp [execute_set_fps, hv])
      | fail => simp [execute_set_fps, hv]
  | str s =>
    cases hv : validate_fps (PyValue.str s) with
    | error e => simp [execute_set_fps, hv]
    | ok q =>
      cases restart with
      | ok => exact absurd h (by simp [execute_set_fps, hv])
      | fail => simp [execute_set_fps, hv]

theorem add_stream_shape (c : StreamProcessorConfig) (n : Int)
    (c' : StreamProcessorConfig) (h : add_stream c n = Except.ok c') :
    ∃ us ms, c' = { c with stream_uris := us, source_id_mapping := ms } := by
  by_cases hmem : n ∈ c.source_id_mapping.getD []
  · simp [add_stream, hmem] at h
  · simp [add_stream, hmem] at h
    exact ⟨_, _, h.symm⟩

theorem remove_stream_shape (c : StreamProcessorConfig) (n : Int)
    (c' : StreamProcessorConfig) (h : remove_stream c n = Except.ok c') :
    ∃ us ms, c' = { c with stream_uris := us, source_id_mapping := ms } := by
  cases hm : c.source_id_mapping with
  | none => simp [remove_stream, hm] at h
  | some m =>
    by_cases hmem : n ∈ m
    · by_cases hlen : c.stream_uris.length = 1
      · simp [remove_stream, hm, hmem, hlen] at h
      · by_cases hidx : m.indexOf n < c.stream_uris.length
        · simp [remove_stream, hm, hmem, hlen, hidx] at h
          exact ⟨_, _, h.symm⟩
        · simp [remove_stream, hm, hmem, hlen, hidx] at h
    · simp [remove_stream, hm, hmem] at h

theorem execute_stream_change_rollback (c : StreamProcessorConfig)
    (op : StreamProcessorConfig → Int → Except String StreamProcessorConfig)
    (n : Int) (restart : RestartOutcome)
    (hpres : ∀ c', op c n = Except.ok c' →
      ∃ us ms, c' = { c with stream_uris := us, source_id_mapping := ms })
    (h : (execute_stream_change c op n restart).1.isSome = true) :
    (execute_stream_change c op n restart).2 =
      { c with source_id_mapping := Option.some (c.source_id_mapping.getD []) } := by
  cases hop : op c n with
  | error e => simp [execute_stream_change, hop]
  | ok c1 =>
    cases restart with
    | ok => exact absurd h (by simp [execute_stream_change, hop])
    | fail =>
      obtain ⟨us, ms, hc1⟩ := hpres c1 hop
      subst hc1
      simp [execute_stream_change, hop]

theorem handle_stream_command_eq (c : StreamProcessorConfig)
    (op : StreamProcessorConfig → Int → Except String StreamProcessorConfig)
    (v : PyValue) (restart : RestartOutcome) (hv : v ≠ PyValue.none) :
    handle_stream_command c op v restart =
      (match validate_source_id v with
       | Except.error e => (Option.some e, c)
       | Except.ok n => execute_stream_change c op n restart) := by
  cases v with
  | none => exact absurd rfl hv
  | int i => rfl
  | float q => rfl
  | str s => rfl

theorem handle_stream_command_rollback (c : StreamProcessorConfig)
    (op : StreamProcessorConfig → Int → Except String StreamProcessorConfig)
    (v : PyValue) (restart : RestartOutcome)
    (hpres : ∀ n c', op c n = Except.ok c' →
      ∃ us ms, c' = { c with stream_uris := us, source_id_mapping := ms })
    (h : (handle_stream_command c op v restart).1.isSome = true) :
    (handle_stream_command c op v restart).2 = c ∨
    (handle_stream_command c op v restart).2 =
      { c with source_id_mapping := Option.some (c.source_id_mapping.getD []) } := by
  by_cases hv : v = PyValue.none
  · subst hv
    exact Or.inl rfl
  · rw [handle_stream_command_eq c op v restart hv] at h ⊢
    cases hval : validate_source_id v with
    | error e => exact Or.inl rfl
    | ok n =>
      rw [hval] at h
      exact Or.inr (execute_stream_change_rollback c op n restart (hpres n) h)

/-- C5 amended: after any failing `change_model`, `set_fps`,
`add_stream` or `remove_stream`, the config equals its pre-command
snapshot — except that a failing `add_stream`/`remove_stream` whose
rollback ran while `source_id_mapping` was `None` leaves the mapping as
the empty list (the backup `list(mapping) if mapping else []` erases
`None`).  Whenever `source_id_mapping` was not `None`, the config is
restored exactly, in every field. -/
theorem reconfig_rollback (c : StreamProcessorConfig) (cmd : ReconfigCommand)
    (restart : RestartOutcome)
    (h : (executeReconfig c cmd restart).1.isSome = true) :
    ((executeReconfig c cmd restart).2 = c ∨
     (executeReconfig c cmd restart).2 =
       { c with source_id_mapping := Option.some (c.source_id_mapping.getD []) }) ∧
    (c.source_id_mapping ≠ Option.none → (executeReconfig c cmd restart).2 = c) := by
  have key : (executeReconfig c cmd restart).2 = c ∨
      (executeReconfig c cmd restart).2 =
        { c with source_id_mapping := Option.some (c.source_id_mapping.getD []) } := by
    cases cmd with
    | changeModel v => exact Or.inl (execute_change_model_rollback c v restart h)
    | setFps v => exact Or.inl (execute_set_fps_rollback c v restart h)
    | addStream v =>
      exact handle_stream_command_rollback c add_stream v restart
        (fun n => add_stream_shape c n) h
    | removeStream v =>
      exact handle_stream_command_rollback c remove_stream v restart
        (fun n => remove_stream_shape c n) h
  refine ⟨key, fun hne => ?_⟩
  rcases key with h1 | h1
  · exact h1
  · obtain ⟨m, hm⟩ := Option.ne_none_iff_exists'.mp hne
    have hsame : Option.some (c.source_id_mapping.getD []) = c.source_id_mapping := by
      rw [hm]
      rfl
    rw [h1, hsame]

/-- C5 counterexample: `cfgNoneMap` has `source_id_mapping = None`;
after `add_stream 5` fails in the restart step and the handler
re-raises, the mapping is `[]`, not `None` — the config no longer
compares equal to its pre-command snapshot. -/
theorem rollback_not_exact_on_none_mapping :
    (executeReconfig cfgNoneMap (ReconfigCommand.addStream (PyValue.int 5))
        RestartOutcome.fail).1.isSome = true ∧
    (executeReconfig cfgNoneMap (ReconfigCommand.addStream (PyValue.int 5))
        RestartOutcome.fail).2.source_id_mapping = Option.some [] ∧
    cfgNoneMap.source_id_mapping = Option.none :=
  ⟨rfl, rfl, rfl⟩

/-- Witness for C5: a failing `remove_stream 5` (unknown id) on the
aligned config restores it exactly. -/
theorem reconfig_rollback_witness :
    (executeReconfig cfgAligned (ReconfigCommand.removeStream (PyValue.int 5))
        RestartOutcome.ok).1.isSome = true ∧
    (executeReconfig cfgAligned (ReconfigCommand.removeStream (PyValue.int 5))
        RestartOutcome.ok).2 = cfgAligned :=
  ⟨rfl, (reconfig_rollback cfgAligned (ReconfigCommand.removeStream (PyValue.int 5))
      RestartOutcome.ok rfl).2 (by decide)⟩

theorem validate_ok_iff (c : StreamProcessorConfig) :
    validate c = Except.ok () ↔
      (c.stream_uris ≠ [] ∧
       (∀ u ∈ c.stream_uris, is_valid_uri u = true) ∧
       1 ≤ c.mqtt_port ∧ c.mqtt_port ≤ 65535 ∧
       (∀ f, c.max_fps = Option.some f → 0 < f) ∧
       0 ≤ c.metrics_reporting_interval ∧
       0 ≤ c.confidence_threshold ∧ c.confidence_threshold ≤ 1) := by
  constructor
  · intro h
    unfold validate at h
    split at h
    · exact Except.noConfusion h
    · rename_i hempty
      split at h
      · exact Except.noConfusion h
      · rename_i hfind
        split at h
        · exact Except.noConfusion h
        · rename_i hport
          split at h
          · exact Except.noConfusion h
          · rename_i hfps
            split at h
            · exact Except.noConfusion h
            · rename_i hint
              split at h
              · exact Except.noConfusion h
              · rename_i hconf
                rw [not_not] at hport hconf
                refine ⟨?_, ?_, hport.1, hport.2, ?_, by omega, hconf.1, hconf.2⟩
                · intro hnil
                  exact hempty (by rw [hnil]; rfl)
                · intro u hu
                  have := List.find?_eq_none.mp hfind u hu
                  simpa using this
                · intro f hf
                  rw [hf] at hfps
                  simp only [decide_eq_true_eq] at hfps
                  exact lt_of_not_le hfps
  · rintro ⟨h1, h2, h3, h4, h5, h6, h7, h8⟩
    have hE : c.stream_uris.isEmpty = false := by
      cases hu : c.stream_uris
      · exact absurd hu h1
      · rfl
    have hfindeq : c.stream_uris.find? (fun u => !is_valid_uri u) = Option.none := by
      rw [List.find?_eq_none]
      intro u hu
      simp [h2 u hu]
    have hfps0 : (match c.max_fps with
        | Option.some f => decide (f ≤ 0)
        | Option.none => false) = false := by
      cases hmf : c.max_fps with
      | none => rfl
      | some f => simpa using not_le.mpr (h5 f hmf)
    unfold validate
    rw [hfindeq]
    simp only [hE, Bool.false_eq_true, if_false, hfps0]
    rw [if_neg (not_not_intro ⟨h3, h4⟩), if_neg (by omega : ¬c.metrics_reporting_interval < 0),
        if_neg (not_not_intro ⟨h7, h8⟩)]

/-- C6 counterexample: a config whose `source_id_mapping` has the wrong
length AND a duplicate source id passes `_validate` at construction —
those two invariants are not checked. -/
theorem invariants_not_checked :
    validate cfgMismatched = Except.ok () ∧
    cfgMismatched.stream_uris.length ≠
      (cfgMismatched.source_id_mapping.getD []).length ∧
    ¬(cfgMismatched.source_id_mapping.getD []).Nodup := by
  refine ⟨rfl, by decide, by decide⟩

/-- C6 amended: `_validate` (run at construction) checks exactly:
non-empty stream list, URI well-formedness, MQTT port range, `max_fps`
null-or-positive, metrics interval non-negative, confidence threshold
in [0,1].  It does NOT check `|stream_uris| == |source_id_mapping|` nor
duplicate source ids, and the mutations do not re-run it; however
`add_stream` and `remove_stream` themselves preserve length equality
and duplicate-freedom when those held before the mutation. -/
theorem config_validation_spec :
    (∀ c : StreamProcessorConfig,
      validate c = Except.ok () ↔
        (c.stream_uris ≠ [] ∧
         (∀ u ∈ c.stream_uris, is_valid_uri u = true) ∧
         1 ≤ c.mqtt_port ∧ c.mqtt_port ≤ 65535 ∧
         (∀ f, c.max_fps = Option.some f → 0 < f) ∧
         0 ≤ c.metrics_reporting_interval ∧
         0 ≤ c.confidence_threshold ∧ c.confidence_threshold ≤ 1)) ∧
    (∀ c n c', add_stream c n = Except.ok c' →
      ((c.source_id_mapping.getD []).length = c.stream_uris.length →
        (c'.source_id_mapping.getD []).length = c'.stream_uris.length) ∧
      ((c.source_id_mapping.getD []).Nodup → (c'.source_id_mapping.getD []).Nodup)) ∧
    (∀ c n c', remove_stream c n = Except.ok c' →
      ((c.source_id_mapping.getD []).length = c.stream_uris.length →
        (c'.source_id_mapping.getD []).length = c'.stream_uris.length) ∧
      ((c.source_id_mapping.getD []).Nodup → (c'.source_id_mapping.getD []).Nodup)) := by
  refine ⟨validate_ok_iff, ?_, ?_⟩
  · intro c n c' h
    by_cases hmem : n ∈ c.source_id_mapping.getD []
    · simp only [add_stream, if_pos hmem] at h
      exact Except.noConfusion h
    · simp only [add_stream, if_neg hmem] at h
      injection h with h
      subst h
      constructor
      · intro hlen
        simp only [Option.getD_some, List.length_append, List.length_singleton]
        rw [hlen]
      · intro hnd
        simp only [Option.getD_some]
        rw [List.nodup_append]
        refine ⟨hnd, by simp, ?_⟩
        intro a ha hb
        rw [List.mem_singleton] at hb
        subst hb
        exact hmem ha
  · intro c n c' h
    cases hm : c.source_id_mapping with
    | none =>
      simp only [remove_stream, hm] at h
      exact Except.noConfusion h
    | some m =>
      simp only [remove_stream, hm] at h
      by_cases hmem : n ∈ m
      · rw [if_neg (not_not_intro hmem)] at h
        by_cases hlen : c.stream_uris.length = 1
        · rw [if_pos (by simp [hlen])] at h
          exact Except.noConfusion h
        · rw [if_neg (by simp [hlen])] at h
          by_cases hidx : m.indexOf n < c.stream_uris.length
          · rw [if_pos hidx] at h
            injection h with h
            subst h
            have hlt : m.indexOf n < m.length := List.indexOf_lt_length.mpr hmem
            constructor
            · intro hleneq
              simp only [Option.getD_some] at hleneq ⊢
              rw [List.length_eraseIdx_of_lt hlt, List.length_eraseIdx_of_lt hidx]
              omega
            · intro hnd
              simp only [Option.getD_some] at hnd ⊢
              exact (List.eraseIdx_sublist m (m.indexOf n)).nodup hnd
          · rw [if_neg hidx] at h
            exact Except.noConfusion h
      · rw [if_pos hmem] at h
        exact Except.noConfusion h

/-- Witness for C6: the aligned two-stream config passes validation,
and a successful `add_stream 5` on it preserves the length equality. -/
theorem config_validation_spec_witness :
    validate cfgAligned = Except.ok () ∧
    (({ cfgAligned with
        stream_uris := cfgAligned.stream_uris ++ [build_stream_uri cfgAligned 5],
        source_id_mapping := Option.some [0, 1, 5] } :
          StreamProcessorConfig).source_id_mapping.getD []).length =
      ({ cfgAligned with
        stream_uris := cfgAligned.stream_uris ++ [build_stream_uri cfgAligned 5],
        source_id_mapping := Option.some [0, 1, 5] } :
          StreamProcessorConfig).stream_uris.length :=
  ⟨(config_validation_spec.1 cfgAligned).mpr
      ⟨by decide, by decide, by decide, by decide,
       fun f hf => Option.noConfusion hf, by decide, by decide, by decide⟩,
   (config_validation_spec.2.1 cfgAligned 5 _ rfl).1 (by decide)⟩

theorem eraseIdx_append_length {α : Type} (l : List α) (a : α) :
    (l ++ [a]).eraseIdx l.length = l := by
  induction l with
  | nil => rfl
  | cons x xs ih =>
    simp only [List.cons_append, List.length_cons, List.eraseIdx_cons_succ, ih]

/-- C7 counterexample: with `source_id_mapping = None`, `add_stream 5`
initialises the mapping to `[5]` (misaligned with the two existing
streams) and `remove_stream 5` then pops index 0 — the FIRST stream
URI — instead of the one just appended: the round trip does not
restore `stream_uris`. -/
theorem add_remove_roundtrip_fails_on_none_mapping :
    ((add_stream cfgNoneMap 5).bind (fun c1 => remove_stream c1 5)).map
        (fun c2 => c2.stream_uris) =
      Except.ok ["rtsp://a/1", build_stream_uri cfgNoneMap 5] ∧
    cfgNoneMap.stream_uris = ["rtsp://a/0", "rtsp://a/1"] ∧
    ("rtsp://a/1" : String) ≠ "rtsp://a/0" := by
  refine ⟨rfl, rfl, by decide⟩

/-- C7 amended: when `source_id_mapping` is a list aligned with
`stream_uris` (same length; stream list non-empty), a successful
`add_stream n` followed by `remove_stream n` restores the config
exactly — stream_uris and source_id_mapping pointwise included; and on
any config with exactly one stream, `remove_stream` raises (for every
id), leaving the config unchanged. -/
theorem add_remove_roundtrip (c : StreamProcessorConfig) (n : Int) (m : List Int)
    (hm : c.source_id_mapping = Option.some m)
    (hlen : m.length = c.stream_uris.length)
    (hne : c.stream_uris ≠ [])
    (hOk : exceptIsOk (add_stream c n) = true) :
    (add_stream c n).bind (fun c1 => remove_stream c1 n) = Except.ok c ∧
    (∀ (c' : StreamProcessorConfig) (k : Int), c'.stream_uris.length = 1 →
      exceptIsOk (remove_stream c' k) = false) := by
  have part2 : ∀ (c' : StreamProcessorConfig) (k : Int), c'.stream_uris.length = 1 →
      exceptIsOk (remove_stream c' k) = false := by
    intro c' k hone
    cases hm' : c'.source_id_mapping with
    | none => simp [remove_stream, hm', exceptIsOk]
    | some m' =>
      by_cases hmem : k ∈ m'
      · simp only [remove_stream, hm', if_neg (not_not_intro hmem)]
        rw [if_pos (by simp [hone])]
        rfl
      · simp only [remove_stream, hm', if_pos hmem]
        rfl
  refine ⟨?_, part2⟩
  by_cases hmem : n ∈ m
  · exact absurd hOk (by simp [add_stream, hm, hmem, exceptIsOk])
  · have hadd : add_stream c n = Except.ok
        { c with stream_uris := c.stream_uris ++ [build_stream_uri c n],
                 source_id_mapping := Option.some (m ++ [n]) } := by
      simp only [add_stream, hm, Option.getD_some, if_neg hmem]
    rw [hadd]
    show remove_stream
        { c with stream_uris := c.stream_uris ++ [build_stream_uri c n],
                 source_id_mapping := Option.some (m ++ [n]) } n = Except.ok c
    have hmem2 : n ∈ m ++ [n] := by simp
    have hpos : 0 < c.stream_uris.length := List.length_pos.mpr hne
    have hidxval : (m ++ [n]).indexOf n = m.length := by
      rw [List.indexOf_append_of_not_mem hmem]
      simp [List.indexOf_cons_self]
    simp only [remove_stream, if_neg (not_not_intro hmem2)]
    rw [if_neg (show ¬((c.stream_uris ++ [build_stream_uri c n]).length == 1) = true from by
      simp only [List.length_append, List.length_singleton, beq_iff_eq]
      omega)]
    rw [if_pos (show (m ++ [n]).indexOf n < (c.stream_uris ++ [build_stream_uri c n]).length from by
      rw [hidxval]
      simp only [List.length_append, List.length_singleton]
      omega)]
    rw [hidxval, hlen, eraseIdx_append_length, ← hlen, eraseIdx_append_length, ← hm]

/-- Witness for C7: on the aligned config, add 5 then remove 5 is the
identity, and removing from the single-stream config raises. -/
theorem add_remove_roundtrip_witness :
    (add_stream cfgAligned 5).bind (fun c1 => remove_stream c1 5) =
      Except.ok cfgAligned ∧
    exceptIsOk (remove_stream cfgSingle 0) = false :=
  ⟨(add_remove_roundtrip cfgAligned 5 [0, 1] rfl rfl (by decide) rfl).1,
   (add_remove_roundtrip cfgAligned 5 [0, 1] rfl rfl (by decide) rfl).2 cfgSingle 0 rfl⟩

end NVR
